import Mathlib

/-!
Verification of the geometry engine of the `perfectfit_print` GIMP plugin
(`src/perfectfit_print.py`), shallowly embedded over exact rationals.

The embedded pieces are:
* `computeTargetInches`  — `_compute_target_inches` (lines 136–158);
* `computeCropCore` / `computeCropAndDpi` — `_compute_crop_and_dpi`
  (lines 161–219), with `pyRound` modelling Python's `round` (round half
  to even) used by `int(round(...))`;
* `exportCropRect` — the rectangle `perfectfit_print_run` hands to the
  external `gimp-image-crop` call (lines 677–695), with no clamping;
* `onScaleChanged` — the lock-scale mirroring handler (lines 588–605);
* `getBaseThumbnailSize` / `previewCropInBase` — the thumbnail sizing
  (`_get_base_thumbnail`, lines 21–44) and the crop-rectangle size
  computation of `draw_preview` (lines 444–458).
-/

namespace PerfectFit

/-- Source image pixel dimensions, as read from `image.get_width()` /
`image.get_height()`. -/
structure SourceImage where
  pixel_width : ℕ
  pixel_height : ℕ
deriving Repr, DecidableEq

/-- The target-size related config properties: `width`, `height`, and the
inches-per-unit factor `Gimp.Unit.get_factor(unit)` resolved for `unit`. -/
structure PrintTarget where
  width : ℚ
  height : ℚ
  unitFactor : ℚ
deriving Repr, DecidableEq

/-- The four view config properties (`x_offset`, `y_offset`, `x_scale`,
`y_scale`). -/
structure ViewParams where
  x_offset : ℚ
  y_offset : ℚ
  x_scale : ℚ
  y_scale : ℚ
deriving Repr, DecidableEq

/-- `_compute_target_inches(config)`: converts width/height/unit to inches,
returning `none` exactly when the Python function returns `(None, None)`. -/
def computeTargetInches (t : PrintTarget) : Option (ℚ × ℚ) :=
  if t.width ≤ 0 ∨ t.height ≤ 0 then none
  else if t.unitFactor = 0 then none
  else
    let target_width_in := t.width / t.unitFactor
    let target_height_in := t.height / t.unitFactor
    if target_width_in ≤ 0 ∨ target_height_in ≤ 0 then none
    else some (target_width_in, target_height_in)

/-- Python's `round` to an integer: round half to even (banker's rounding). -/
def pyRound (q : ℚ) : ℤ :=
  let f := ⌊q⌋
  let r := q - f
  if r < 1/2 then f
  else if 1/2 < r then f + 1
  else if f % 2 = 0 then f else f + 1

/-- All intermediate (pre-rounding) quantities of `_compute_crop_and_dpi`. -/
structure CropComputation where
  full_sel_w : ℚ
  full_sel_h : ℚ
  selection_aspect : ℚ
  target_aspect : ℚ
  cropped_sel_w : ℚ
  cropped_sel_h : ℚ
  dpi_x : ℚ
  dpi_y : ℚ
  sel_origin_x : ℚ
  sel_origin_y : ℚ
  crop_origin_x : ℚ
  crop_origin_y : ℚ
deriving Repr, DecidableEq

/-- The body of `_compute_crop_and_dpi` (lines 181–208) before the final
integer rounding, given the already-resolved target size in inches. -/
def computeCropCore (img : SourceImage) (target_width_in target_height_in : ℚ)
    (v : ViewParams) : CropComputation :=
  let img_width_px : ℚ := img.pixel_width
  let img_height_px : ℚ := img.pixel_height
  let full_sel_w := img_width_px / v.x_scale
  let full_sel_h := img_height_px / v.y_scale
  let selection_aspect := full_sel_w / full_sel_h
  let target_aspect := target_width_in / target_height_in
  let cropped_sel_w :=
    if selection_aspect < target_aspect then full_sel_w
    else full_sel_h * target_aspect
  let cropped_sel_h :=
    if selection_aspect < target_aspect then full_sel_w / target_aspect
    else full_sel_h
  let dpi_x := cropped_sel_w / target_width_in
  let dpi_y := cropped_sel_h / target_height_in
  let sel_origin_x := (img_width_px - full_sel_w) / 2
  let sel_origin_y := (img_height_px - full_sel_h) / 2
  let crop_offset_x := (full_sel_w - cropped_sel_w) * (v.x_offset + 1/2)
  let crop_offset_y := (full_sel_h - cropped_sel_h) * (v.y_offset + 1/2)
  { full_sel_w := full_sel_w
    full_sel_h := full_sel_h
    selection_aspect := selection_aspect
    target_aspect := target_aspect
    cropped_sel_w := cropped_sel_w
    cropped_sel_h := cropped_sel_h
    dpi_x := dpi_x
    dpi_y := dpi_y
    sel_origin_x := sel_origin_x
    sel_origin_y := sel_origin_y
    crop_origin_x := sel_origin_x + crop_offset_x
    crop_origin_y := sel_origin_y + crop_offset_y }

/-- The dictionary returned by `_compute_crop_and_dpi` (lines 210–219). -/
structure CropResult where
  dpi_x : ℚ
  dpi_y : ℚ
  offx : ℤ
  offy : ℤ
  width : ℤ
  height : ℤ
  target_width_in : ℚ
  target_height_in : ℚ
deriving Repr, DecidableEq

/-- `_compute_crop_and_dpi(new_image, config)` (lines 161–219): `none` when
the target is invalid, otherwise the rounded crop rectangle and the DPI. -/
def computeCropAndDpi (img : SourceImage) (t : PrintTarget) (v : ViewParams) :
    Option CropResult :=
  match computeTargetInches t with
  | none => none
  | some (target_width_in, target_height_in) =>
      let c := computeCropCore img target_width_in target_height_in v
      some { dpi_x := c.dpi_x
             dpi_y := c.dpi_y
             offx := pyRound c.crop_origin_x
             offy := pyRound c.crop_origin_y
             width := pyRound c.cropped_sel_w
             height := pyRound c.cropped_sel_h
             target_width_in := target_width_in
             target_height_in := target_height_in }

/-- The integer rectangle `(offx, offy, width, height)` that
`perfectfit_print_run` passes to the `gimp-image-crop` PDB call
(lines 677–695).  The export path forwards the engine's rounded values
unchanged — there is no clamping between the engine and the crop call. -/
def exportCropRect (img : SourceImage) (t : PrintTarget) (v : ViewParams) :
    Option (ℤ × ℤ × ℤ × ℤ) :=
  (computeCropAndDpi img t v).map fun r => (r.offx, r.offy, r.width, r.height)

/-- One of the two scale axes. -/
inductive Axis where
  | x
  | y
deriving Repr, DecidableEq

/-- The opposite axis. -/
def Axis.other : Axis → Axis
  | .x => .y
  | .y => .x

/-- The mutable state the lock-scale handler works over: the two scale
config properties and the chain-button state. -/
structure ScaleState where
  x_scale : ℚ
  y_scale : ℚ
  lock_scale : Bool
deriving Repr, DecidableEq

/-- Read one scale value. -/
def ScaleState.get (s : ScaleState) : Axis → ℚ
  | .x => s.x_scale
  | .y => s.y_scale

/-- Write one scale value. -/
def ScaleState.set (s : ScaleState) : Axis → ℚ → ScaleState
  | .x, q => { s with x_scale := q }
  | .y, q => { s with y_scale := q }

/-- `on_scale_changed` (lines 588–605): a user-driven change of the
`changed` axis to `newValue` (the adjustment binding has already stored it),
followed by the handler's mirroring.  The returned `Bool` records whether
the handler performed the `config.set_property` write on the other axis:
it does so only when the lock is active and the other value differs. -/
def onScaleChanged (s : ScaleState) (changed : Axis) (newValue : ℚ) :
    ScaleState × Bool :=
  let s1 := s.set changed newValue
  if s1.lock_scale = false then (s1, false)
  else if s1.get changed.other ≠ newValue then
    (s1.set changed.other newValue, true)
  else (s1, false)

/-- `_get_base_thumbnail` (lines 21–44): the pixel size of the base
thumbnail, fitted inside a 1024×1024 box (`none` for a degenerate image).
`int()` truncation on the positive quantities is modelled by `Int.floor`. -/
def getBaseThumbnailSize (img : SourceImage) : Option (ℕ × ℕ) :=
  if img.pixel_width = 0 ∨ img.pixel_height = 0 then none
  else
    let img_aspect : ℚ := (img.pixel_width : ℚ) / (img.pixel_height : ℚ)
    let target_width : ℤ :=
      if 1 < img_aspect then 1024 else ⌊(1024 : ℚ) * img_aspect⌋
    let target_height : ℤ :=
      if 1 < img_aspect then ⌊(1024 : ℚ) / img_aspect⌋ else 1024
    some ((max 1 target_width).toNat, (max 1 target_height).toNat)

/-- The crop-rectangle size computation of `draw_preview` (lines 444–458):
the target aspect falls back to the base thumbnail's aspect when the height
property is not positive, then the aspect-fit rule sizes the crop rectangle
inside the base thumbnail.  Returns `(crop_w_in_base, crop_h_in_base)`. -/
def previewCropInBase (base_w base_h target_w target_h : ℚ) : ℚ × ℚ :=
  let base_aspect := base_w / base_h
  let target_aspect := if 0 < target_h then target_w / target_h else base_aspect
  if base_aspect < target_aspect then (base_w, base_w / target_aspect)
  else (base_h * target_aspect, base_h)

/-- C1 scenario input: 3000×2000 px source. -/
def imgC1 : SourceImage := ⟨3000, 2000⟩

/-- C1 scenario input: 10×8 at unit factor 1 (inch). -/
def targetC1 : PrintTarget := ⟨10, 8, 1⟩

/-- C1 scenario input: unit scale, centered offsets. -/
def viewC1 : ViewParams := ⟨0, 0, 1, 1⟩

end PerfectFit

open PerfectFit

/-- C1: for a 3000×2000 source, a 10×8 inch target (unit factor 1), unit
scales and zero offsets, `_compute_crop_and_dpi` returns
`dpi_x = dpi_y = 250`, crop origin `(250, 0)` and crop size `(2500, 2000)`. -/
theorem C1_scenario_3000x2000_10x8in :
    PerfectFit.computeCropAndDpi PerfectFit.imgC1 PerfectFit.targetC1
      PerfectFit.viewC1 =
      some { dpi_x := 250, dpi_y := 250, offx := 250, offy := 0,
             width := 2500, height := 2000,
             target_width_in := 10, target_height_in := 8 } := by
  norm_num [computeCropAndDpi, computeTargetInches, computeCropCore, pyRound,
    imgC1, targetC1, viewC1]

namespace PerfectFit

/-- With positive width, height and unit factor, `_compute_target_inches`
succeeds and returns the division by the unit factor. -/
theorem computeTargetInches_pos (t : PrintTarget) (hw : 0 < t.width)
    (hh : 0 < t.height) (hf : 0 < t.unitFactor) :
    computeTargetInches t
      = some (t.width / t.unitFactor, t.height / t.unitFactor) := by
  have hW : (0:ℚ) < t.width / t.unitFactor := div_pos hw hf
  have hH : (0:ℚ) < t.height / t.unitFactor := div_pos hh hf
  simp [computeTargetInches, hw.not_le, hh.not_le, hf.ne', hW.not_le, hH.not_le]

theorem core_full_sel_w (img : SourceImage) (tw th : ℚ) (v : ViewParams) :
    (computeCropCore img tw th v).full_sel_w
      = (img.pixel_width : ℚ) / v.x_scale := rfl

theorem core_full_sel_h (img : SourceImage) (tw th : ℚ) (v : ViewParams) :
    (computeCropCore img tw th v).full_sel_h
      = (img.pixel_height : ℚ) / v.y_scale := rfl

theorem core_sel_origin_x (img : SourceImage) (tw th : ℚ) (v : ViewParams) :
    (computeCropCore img tw th v).sel_origin_x
      = ((img.pixel_width : ℚ) - (computeCropCore img tw th v).full_sel_w) / 2 :=
  rfl

theorem core_sel_origin_y (img : SourceImage) (tw th : ℚ) (v : ViewParams) :
    (computeCropCore img tw th v).sel_origin_y
      = ((img.pixel_height : ℚ) - (computeCropCore img tw th v).full_sel_h) / 2 :=
  rfl

theorem core_crop_origin_x (img : SourceImage) (tw th : ℚ) (v : ViewParams) :
    (computeCropCore img tw th v).crop_origin_x
      = (computeCropCore img tw th v).sel_origin_x
        + ((computeCropCore img tw th v).full_sel_w
            - (computeCropCore img tw th v).cropped_sel_w) * (v.x_offset + 1/2) :=
  rfl

theorem core_crop_origin_y (img : SourceImage) (tw th : ℚ) (v : ViewParams) :
    (computeCropCore img tw th v).crop_origin_y
      = (computeCropCore img tw th v).sel_origin_y
        + ((computeCropCore img tw th v).full_sel_h
            - (computeCropCore img tw th v).cropped_sel_h) * (v.y_offset + 1/2) :=
  rfl

theorem core_dpi_x (img : SourceImage) (tw th : ℚ) (v : ViewParams) :
    (computeCropCore img tw th v).dpi_x
      = (computeCropCore img tw th v).cropped_sel_w / tw := rfl

theorem core_dpi_y (img : SourceImage) (tw th : ℚ) (v : ViewParams) :
    (computeCropCore img tw th v).dpi_y
      = (computeCropCore img tw th v).cropped_sel_h / th := rfl

/-- The aspect-fit rule picks the smaller of the two candidate widths. -/
theorem core_cropped_sel_w_min (img : SourceImage) (tw th : ℚ) (v : ViewParams)
    (hph : 0 < img.pixel_height) (hys : 0 < v.y_scale) :
    (computeCropCore img tw th v).cropped_sel_w
      = min ((img.pixel_width : ℚ) / v.x_scale)
          ((img.pixel_height : ℚ) / v.y_scale * (tw / th)) := by
  have hB : (0:ℚ) < (img.pixel_height : ℚ) / v.y_scale :=
    div_pos (by exact_mod_cast hph) hys
  simp only [computeCropCore]
  by_cases h :
      (img.pixel_width : ℚ) / v.x_scale / ((img.pixel_height : ℚ) / v.y_scale)
        < tw / th
  · rw [if_pos h]
    have h1 := (div_lt_iff₀ hB).mp h
    have h2 : (img.pixel_width : ℚ) / v.x_scale
        ≤ (img.pixel_height : ℚ) / v.y_scale * (tw / th) := by
      linarith [mul_comm (tw / th) ((img.pixel_height : ℚ) / v.y_scale)]
    exact (min_eq_left h2).symm
  · rw [if_neg h]
    have h1 := (le_div_iff₀ hB).mp (not_lt.mp h)
    have h2 : (img.pixel_height : ℚ) / v.y_scale * (tw / th)
        ≤ (img.pixel_width : ℚ) / v.x_scale := by
      linarith [mul_comm (tw / th) ((img.pixel_height : ℚ) / v.y_scale)]
    exact (min_eq_right h2).symm

/-- The aspect-fit rule picks the smaller of the two candidate heights. -/
theorem core_cropped_sel_h_min (img : SourceImage) (tw th : ℚ) (v : ViewParams)
    (hph : 0 < img.pixel_height) (hys : 0 < v.y_scale)
    (htw : 0 < tw) (hth : 0 < th) :
    (computeCropCore img tw th v).cropped_sel_h
      = min ((img.pixel_width : ℚ) / v.x_scale / (tw / th))
          ((img.pixel_height : ℚ) / v.y_scale) := by
  have hB : (0:ℚ) < (img.pixel_height : ℚ) / v.y_scale :=
    div_pos (by exact_mod_cast hph) hys
  have hT : (0:ℚ) < tw / th := div_pos htw hth
  simp only [computeCropCore]
  by_cases h :
      (img.pixel_width : ℚ) / v.x_scale / ((img.pixel_height : ℚ) / v.y_scale)
        < tw / th
  · rw [if_pos h]
    have h1 := (div_lt_iff₀ hB).mp h
    have h2 : (img.pixel_width : ℚ) / v.x_scale / (tw / th)
        ≤ (img.pixel_height : ℚ) / v.y_scale := by
      rw [div_le_iff₀ hT]
      linarith [mul_comm (tw / th) ((img.pixel_height : ℚ) / v.y_scale)]
    exact (min_eq_left h2).symm
  · rw [if_neg h]
    have h1 := (le_div_iff₀ hB).mp (not_lt.mp h)
    have h2 : (img.pixel_height : ℚ) / v.y_scale
        ≤ (img.pixel_width : ℚ) / v.x_scale / (tw / th) := by
      rw [le_div_iff₀ hT]
      linarith [mul_comm (tw / th) ((img.pixel_height : ℚ) / v.y_scale)]
    exact (min_eq_right h2).symm

/-- The crop width is the crop height times the target aspect ratio. -/
theorem core_aspect (img : SourceImage) (tw th : ℚ) (v : ViewParams)
    (hph : 0 < img.pixel_height) (hys : 0 < v.y_scale)
    (htw : 0 < tw) (hth : 0 < th) :
    (computeCropCore img tw th v).cropped_sel_w
      = (computeCropCore img tw th v).cropped_sel_h * (tw / th) := by
  have hT : (0:ℚ) < tw / th := div_pos htw hth
  rw [core_cropped_sel_w_min img tw th v hph hys,
    core_cropped_sel_h_min img tw th v hph hys htw hth,
    min_mul_of_nonneg _ _ hT.le, div_mul_cancel₀ _ hT.ne']

/-- Positivity of the pre-rounding crop extents. -/
theorem core_cropped_pos (img : SourceImage) (tw th : ℚ) (v : ViewParams)
    (hpw : 0 < img.pixel_width) (hph : 0 < img.pixel_height)
    (htw : 0 < tw) (hth : 0 < th)
    (hxs : 0 < v.x_scale) (hys : 0 < v.y_scale) :
    0 < (computeCropCore img tw th v).cropped_sel_w
      ∧ 0 < (computeCropCore img tw th v).cropped_sel_h := by
  have hA : (0:ℚ) < (img.pixel_width : ℚ) / v.x_scale :=
    div_pos (by exact_mod_cast hpw) hxs
  have hB : (0:ℚ) < (img.pixel_height : ℚ) / v.y_scale :=
    div_pos (by exact_mod_cast hph) hys
  have hT : (0:ℚ) < tw / th := div_pos htw hth
  constructor
  · rw [core_cropped_sel_w_min img tw th v hph hys]
    exact lt_min hA (mul_pos hB hT)
  · rw [core_cropped_sel_h_min img tw th v hph hys htw hth]
    exact lt_min (div_pos hA hT) hB

/-- The two DPI values agree exactly over the rationals. -/
theorem core_dpi_eq (img : SourceImage) (tw th : ℚ) (v : ViewParams)
    (hph : 0 < img.pixel_height) (hys : 0 < v.y_scale)
    (htw : 0 < tw) (hth : 0 < th) :
    (computeCropCore img tw th v).dpi_x = (computeCropCore img tw th v).dpi_y := by
  rw [core_dpi_x, core_dpi_y, core_aspect img tw th v hph hys htw hth]
  field_simp
  ring

end PerfectFit

/-- C2: for every source with positive pixel dimensions, valid target and
scales in `[1, 2]`, the pre-rounding crop extent of `_compute_crop_and_dpi`
satisfies `cropped_sel_w ≤ full_sel_w` and `cropped_sel_h ≤ full_sel_h`,
with `full_sel_w = pixel_width / x_scale`, `full_sel_h = pixel_height /
y_scale`, and the crop's aspect ratio equals the target aspect exactly. -/
theorem C2_crop_within_selection (img : SourceImage) (t : PrintTarget)
    (v : ViewParams)
    (hpw : 0 < img.pixel_width) (hph : 0 < img.pixel_height)
    (hw : 0 < t.width) (hh : 0 < t.height) (hf : 0 < t.unitFactor)
    (hxs1 : 1 ≤ v.x_scale) (hxs2 : v.x_scale ≤ 2)
    (hys1 : 1 ≤ v.y_scale) (hys2 : v.y_scale ≤ 2) :
    computeTargetInches t
        = some (t.width / t.unitFactor, t.height / t.unitFactor)
      ∧ (computeCropCore img (t.width / t.unitFactor) (t.height / t.unitFactor)
          v).full_sel_w = (img.pixel_width : ℚ) / v.x_scale
      ∧ (computeCropCore img (t.width / t.unitFactor) (t.height / t.unitFactor)
          v).full_sel_h = (img.pixel_height : ℚ) / v.y_scale
      ∧ (computeCropCore img (t.width / t.unitFactor) (t.height / t.unitFactor)
          v).cropped_sel_w
          ≤ (computeCropCore img (t.width / t.unitFactor)
              (t.height / t.unitFactor) v).full_sel_w
      ∧ (computeCropCore img (t.width / t.unitFactor) (t.height / t.unitFactor)
          v).cropped_sel_h
          ≤ (computeCropCore img (t.width / t.unitFactor)
              (t.height / t.unitFactor) v).full_sel_h
      ∧ (computeCropCore img (t.width / t.unitFactor) (t.height / t.unitFactor)
          v).cropped_sel_w
          / (computeCropCore img (t.width / t.unitFactor)
              (t.height / t.unitFactor) v).cropped_sel_h
          = (t.width / t.unitFactor) / (t.height / t.unitFactor) := by
  have hxs : (0:ℚ) < v.x_scale := lt_of_lt_of_le one_pos hxs1
  have hys : (0:ℚ) < v.y_scale := lt_of_lt_of_le one_pos hys1
  have htw : (0:ℚ) < t.width / t.unitFactor := div_pos hw hf
  have hth : (0:ℚ) < t.height / t.unitFactor := div_pos hh hf
  have hT : (0:ℚ) < (t.width / t.unitFactor) / (t.height / t.unitFactor) :=
    div_pos htw hth
  have hpos := core_cropped_pos img (t.width / t.unitFactor)
    (t.height / t.unitFactor) v hpw hph htw hth hxs hys
  refine ⟨computeTargetInches_pos t hw hh hf, rfl, rfl, ?_, ?_, ?_⟩
  · rw [core_cropped_sel_w_min img _ _ v hph hys, core_full_sel_w]
    exact min_le_left _ _
  · rw [core_cropped_sel_h_min img _ _ v hph hys htw hth, core_full_sel_h]
    exact min_le_right _ _
  · rw [core_aspect img _ _ v hph hys htw hth]
    exact mul_div_cancel_left₀ _ (ne_of_gt hpos.2)

/-- C2 witness at the concrete C1 scenario input. -/
theorem C2_crop_within_selection_witness :
    (0 < imgC1.pixel_width ∧ 0 < imgC1.pixel_height
      ∧ 0 < targetC1.width ∧ 0 < targetC1.height ∧ 0 < targetC1.unitFactor
      ∧ 1 ≤ viewC1.x_scale ∧ viewC1.x_scale ≤ 2
      ∧ 1 ≤ viewC1.y_scale ∧ viewC1.y_scale ≤ 2)
    ∧ (computeTargetInches targetC1
        = some (targetC1.width / targetC1.unitFactor,
            targetC1.height / targetC1.unitFactor)
      ∧ (computeCropCore imgC1 (targetC1.width / targetC1.unitFactor)
          (targetC1.height / targetC1.unitFactor) viewC1).full_sel_w
          = (imgC1.pixel_width : ℚ) / viewC1.x_scale
      ∧ (computeCropCore imgC1 (targetC1.width / targetC1.unitFactor)
          (targetC1.height / targetC1.unitFactor) viewC1).full_sel_h
          = (imgC1.pixel_height : ℚ) / viewC1.y_scale
      ∧ (computeCropCore imgC1 (targetC1.width / targetC1.unitFactor)
          (targetC1.height / targetC1.unitFactor) viewC1).cropped_sel_w
          ≤ (computeCropCore imgC1 (targetC1.width / targetC1.unitFactor)
              (targetC1.height / targetC1.unitFactor) viewC1).full_sel_w
      ∧ (computeCropCore imgC1 (targetC1.width / targetC1.unitFactor)
          (targetC1.height / targetC1.unitFactor) viewC1).cropped_sel_h
          ≤ (computeCropCore imgC1 (targetC1.width / targetC1.unitFactor)
              (targetC1.height / targetC1.unitFactor) viewC1).full_sel_h
      ∧ (computeCropCore imgC1 (targetC1.width / targetC1.unitFactor)
          (targetC1.height / targetC1.unitFactor) viewC1).cropped_sel_w
          / (computeCropCore imgC1 (targetC1.width / targetC1.unitFactor)
              (targetC1.height / targetC1.unitFactor) viewC1).cropped_sel_h
          = (targetC1.width / targetC1.unitFactor)
            / (targetC1.height / targetC1.unitFactor)) :=
  ⟨⟨by decide, by decide, by norm_num [targetC1], by norm_num [targetC1],
    by norm_num [targetC1], by norm_num [viewC1], by norm_num [viewC1],
    by norm_num [viewC1], by norm_num [viewC1]⟩,
   C2_crop_within_selection imgC1 targetC1 viewC1 (by decide) (by decide)
    (by norm_num [targetC1]) (by norm_num [targetC1]) (by norm_num [targetC1])
    (by norm_num [viewC1]) (by norm_num [viewC1]) (by norm_num [viewC1])
    (by norm_num [viewC1])⟩

/-- C3: for every valid input the two DPI values returned by
`_compute_crop_and_dpi` are exactly equal over the rationals, and each is
the corresponding cropped extent divided by the target size in inches. -/
theorem C3_dpi_equal (img : SourceImage) (t : PrintTarget) (v : ViewParams)
    (hpw : 0 < img.pixel_width) (hph : 0 < img.pixel_height)
    (hw : 0 < t.width) (hh : 0 < t.height) (hf : 0 < t.unitFactor)
    (hxs : 0 < v.x_scale) (hys : 0 < v.y_scale) :
    ∃ r : CropResult, computeCropAndDpi img t v = some r
      ∧ r.dpi_x
          = (computeCropCore img (t.width / t.unitFactor)
              (t.height / t.unitFactor) v).cropped_sel_w
            / (t.width / t.unitFactor)
      ∧ r.dpi_y
          = (computeCropCore img (t.width / t.unitFactor)
              (t.height / t.unitFactor) v).cropped_sel_h
            / (t.height / t.unitFactor)
      ∧ r.dpi_x = r.dpi_y := by
  have htw : (0:ℚ) < t.width / t.unitFactor := div_pos hw hf
  have hth : (0:ℚ) < t.height / t.unitFactor := div_pos hh hf
  have heq : computeCropAndDpi img t v = some
      { dpi_x := (computeCropCore img (t.width / t.unitFactor)
          (t.height / t.unitFactor) v).dpi_x
        dpi_y := (computeCropCore img (t.width / t.unitFactor)
          (t.height / t.unitFactor) v).dpi_y
        offx := pyRound (computeCropCore img (t.width / t.unitFactor)
          (t.height / t.unitFactor) v).crop_origin_x
        offy := pyRound (computeCropCore img (t.width / t.unitFactor)
          (t.height / t.unitFactor) v).crop_origin_y
        width := pyRound (computeCropCore img (t.width / t.unitFactor)
          (t.height / t.unitFactor) v).cropped_sel_w
        height := pyRound (computeCropCore img (t.width / t.unitFactor)
          (t.height / t.unitFactor) v).cropped_sel_h
        target_width_in := t.width / t.unitFactor
        target_height_in := t.height / t.unitFactor } := by
    simp only [computeCropAndDpi, computeTargetInches_pos t hw hh hf]
  exact ⟨_, heq, core_dpi_x img _ _ v, core_dpi_y img _ _ v,
    core_dpi_eq img _ _ v hph hys htw hth⟩

/-- C3 witness at the concrete C1 scenario input. -/
theorem C3_dpi_equal_witness :
    (0 < imgC1.pixel_width ∧ 0 < imgC1.pixel_height
      ∧ 0 < targetC1.width ∧ 0 < targetC1.height ∧ 0 < targetC1.unitFactor
      ∧ 0 < viewC1.x_scale ∧ 0 < viewC1.y_scale)
    ∧ (∃ r : CropResult, computeCropAndDpi imgC1 targetC1 viewC1 = some r
      ∧ r.dpi_x
          = (computeCropCore imgC1 (targetC1.width / targetC1.unitFactor)
              (targetC1.height / targetC1.unitFactor) viewC1).cropped_sel_w
            / (targetC1.width / targetC1.unitFactor)
      ∧ r.dpi_y
          = (computeCropCore imgC1 (targetC1.width / targetC1.unitFactor)
              (targetC1.height / targetC1.unitFactor) viewC1).cropped_sel_h
            / (targetC1.height / targetC1.unitFactor)
      ∧ r.dpi_x = r.dpi_y) :=
  ⟨⟨by decide, by decide, by norm_num [targetC1], by norm_num [targetC1],
    by norm_num [targetC1], by norm_num [viewC1], by norm_num [viewC1]⟩,
   C3_dpi_equal imgC1 targetC1 viewC1 (by decide) (by decide)
    (by norm_num [targetC1]) (by norm_num [targetC1]) (by norm_num [targetC1])
    (by norm_num [viewC1]) (by norm_num [viewC1])⟩

namespace PerfectFit

/-- Pure slack arithmetic: panning inside the remaining slack keeps the
right/bottom edge inside the image when the offset is at most `1/2`. -/
theorem originSlack_le (pw F C xo : ℚ) (hF : F ≤ pw) (hC : C ≤ F)
    (hxo : xo ≤ 1/2) :
    (pw - F) / 2 + (F - C) * (xo + 1/2) + C ≤ pw := by
  have hprod : (F - C) * (xo + 1/2) ≤ (F - C) * 1 :=
    mul_le_mul_of_nonneg_left (by linarith) (by linarith)
  linarith

/-- Rounding half to even moves a value up by at most one half. -/
theorem pyRound_le_add_half (q : ℚ) : (pyRound q : ℚ) ≤ q + 1/2 := by
  have hfl : ((⌊q⌋ : ℤ) : ℚ) ≤ q := Int.floor_le q
  simp only [pyRound]
  split_ifs with h1 h2 h3
  · linarith
  · push_cast
    linarith
  · linarith
  · rw [not_lt] at h1 h2
    push_cast
    linarith

/-- Rounding half to even of a value above one half is at least one. -/
theorem pyRound_one_le (q : ℚ) (hq : 1/2 < q) : 1 ≤ pyRound q := by
  have h0 : 0 ≤ ⌊q⌋ := Int.le_floor.mpr (by push_cast; linarith)
  have hfl : ((⌊q⌋ : ℤ) : ℚ) ≤ q := Int.floor_le q
  simp only [pyRound]
  split_ifs with h1 h2 h3
  · have hgt : (0:ℚ) < (⌊q⌋ : ℚ) := by linarith
    have : 0 < ⌊q⌋ := by exact_mod_cast hgt
    omega
  · omega
  · rw [not_lt] at h1 h2
    have hgt : (0:ℚ) < (⌊q⌋ : ℚ) := by linarith
    have : 0 < ⌊q⌋ := by exact_mod_cast hgt
    omega
  · omega

/-- Rounding half to even sends a positive value of at most one half
to zero. -/
theorem pyRound_eq_zero (q : ℚ) (h0 : 0 < q) (h1 : q ≤ 1/2) : pyRound q = 0 := by
  have hf : ⌊q⌋ = 0 := by
    rw [Int.floor_eq_zero_iff]
    exact Set.mem_Ico.mpr ⟨h0.le, by linarith⟩
  simp only [pyRound, hf, Int.cast_zero, sub_zero]
  split_ifs with hA hB hC
  · rfl
  · linarith
  · rfl
  · exact absurd (by decide) hC

end PerfectFit

/-- C4: the pre-rounding crop origin equals
`sel_origin + (sel_dim - crop_dim) * (offset + 0.5)` per axis (with
`sel_origin = (pixel_dim - sel_dim) / 2`); at offset `-0.5` it sits at the
selection origin, at offset `0.5` at `sel_origin + (sel_dim - crop_dim)`,
and with zero offsets and unit scales it is the exact center crop. -/
theorem C4_crop_origin_formula (img : SourceImage) (tw th xo yo xs ys : ℚ) :
    (computeCropCore img tw th ⟨xo, yo, xs, ys⟩).crop_origin_x
        = (computeCropCore img tw th ⟨xo, yo, xs, ys⟩).sel_origin_x
          + ((computeCropCore img tw th ⟨xo, yo, xs, ys⟩).full_sel_w
              - (computeCropCore img tw th ⟨xo, yo, xs, ys⟩).cropped_sel_w)
            * (xo + 1/2)
      ∧ (computeCropCore img tw th ⟨xo, yo, xs, ys⟩).crop_origin_y
        = (computeCropCore img tw th ⟨xo, yo, xs, ys⟩).sel_origin_y
          + ((computeCropCore img tw th ⟨xo, yo, xs, ys⟩).full_sel_h
              - (computeCropCore img tw th ⟨xo, yo, xs, ys⟩).cropped_sel_h)
            * (yo + 1/2)
      ∧ (computeCropCore img tw th ⟨xo, yo, xs, ys⟩).sel_origin_x
        = ((img.pixel_width : ℚ)
            - (computeCropCore img tw th ⟨xo, yo, xs, ys⟩).full_sel_w) / 2
      ∧ (computeCropCore img tw th ⟨xo, yo, xs, ys⟩).sel_origin_y
        = ((img.pixel_height : ℚ)
            - (computeCropCore img tw th ⟨xo, yo, xs, ys⟩).full_sel_h) / 2
      ∧ (computeCropCore img tw th ⟨-(1/2), yo, xs, ys⟩).crop_origin_x
        = (computeCropCore img tw th ⟨-(1/2), yo, xs, ys⟩).sel_origin_x
      ∧ (computeCropCore img tw th ⟨1/2, yo, xs, ys⟩).crop_origin_x
        = (computeCropCore img tw th ⟨1/2, yo, xs, ys⟩).sel_origin_x
          + ((computeCropCore img tw th ⟨1/2, yo, xs, ys⟩).full_sel_w
              - (computeCropCore img tw th ⟨1/2, yo, xs, ys⟩).cropped_sel_w)
      ∧ (computeCropCore img tw th ⟨xo, -(1/2), xs, ys⟩).crop_origin_y
        = (computeCropCore img tw th ⟨xo, -(1/2), xs, ys⟩).sel_origin_y
      ∧ (computeCropCore img tw th ⟨xo, 1/2, xs, ys⟩).crop_origin_y
        = (computeCropCore img tw th ⟨xo, 1/2, xs, ys⟩).sel_origin_y
          + ((computeCropCore img tw th ⟨xo, 1/2, xs, ys⟩).full_sel_h
              - (computeCropCore img tw th ⟨xo, 1/2, xs, ys⟩).cropped_sel_h)
      ∧ (computeCropCore img tw th ⟨0, 0, 1, 1⟩).crop_origin_x
        = ((img.pixel_width : ℚ)
            - (computeCropCore img tw th ⟨0, 0, 1, 1⟩).cropped_sel_w) / 2
      ∧ (computeCropCore img tw th ⟨0, 0, 1, 1⟩).crop_origin_y
        = ((img.pixel_height : ℚ)
            - (computeCropCore img tw th ⟨0, 0, 1, 1⟩).cropped_sel_h) / 2 := by
  refine ⟨?_, ?_, ?_, ?_, ?_, ?_, ?_, ?_, ?_, ?_⟩ <;>
    · simp only [computeCropCore]
      try ring

/-- C5: with all other parameters fixed, a larger `x_scale` in `[1, 2]`
strictly shrinks the selection width and never grows the pre-rounding crop
width, across both aspect-fit branches. -/
theorem C5_scale_monotonicity (img : SourceImage) (tw th xo yo ys x1 x2 : ℚ)
    (hpw : 0 < img.pixel_width) (hph : 0 < img.pixel_height)
    (htw : 0 < tw) (hth : 0 < th)
    (hx1 : 1 ≤ x1) (hx2 : x2 ≤ 2) (h12 : x1 < x2)
    (hys1 : 1 ≤ ys) (hys2 : ys ≤ 2) :
    (computeCropCore img tw th ⟨xo, yo, x2, ys⟩).full_sel_w
        < (computeCropCore img tw th ⟨xo, yo, x1, ys⟩).full_sel_w
      ∧ (computeCropCore img tw th ⟨xo, yo, x2, ys⟩).cropped_sel_w
        ≤ (computeCropCore img tw th ⟨xo, yo, x1, ys⟩).cropped_sel_w := by
  have hpw' : (0:ℚ) < img.pixel_width := by exact_mod_cast hpw
  have h01 : (0:ℚ) < x1 := lt_of_lt_of_le one_pos hx1
  have h02 : (0:ℚ) < x2 := h01.trans h12
  have hys : (0:ℚ) < ys := lt_of_lt_of_le one_pos hys1
  have hmono : (img.pixel_width : ℚ) / x2 < (img.pixel_width : ℚ) / x1 :=
    (div_lt_div_iff_of_pos_left hpw' h02 h01).mpr h12
  constructor
  · exact hmono
  · rw [core_cropped_sel_w_min img tw th ⟨xo, yo, x2, ys⟩ hph hys,
      core_cropped_sel_w_min img tw th ⟨xo, yo, x1, ys⟩ hph hys]
    exact min_le_min hmono.le le_rfl

/-- C5 witness: scales 1 and 2 on the C1 scenario. -/
theorem C5_scale_monotonicity_witness :
    (0 < imgC1.pixel_width ∧ 0 < imgC1.pixel_height ∧ (0:ℚ) < 10 ∧ (0:ℚ) < 8
      ∧ (1:ℚ) ≤ 1 ∧ (2:ℚ) ≤ 2 ∧ (1:ℚ) < 2 ∧ (1:ℚ) ≤ 1 ∧ (1:ℚ) ≤ 2)
    ∧ ((computeCropCore imgC1 10 8 ⟨0, 0, 2, 1⟩).full_sel_w
        < (computeCropCore imgC1 10 8 ⟨0, 0, 1, 1⟩).full_sel_w
      ∧ (computeCropCore imgC1 10 8 ⟨0, 0, 2, 1⟩).cropped_sel_w
        ≤ (computeCropCore imgC1 10 8 ⟨0, 0, 1, 1⟩).cropped_sel_w) :=
  ⟨⟨by decide, by decide, by norm_num, by norm_num, by norm_num, by norm_num,
    by norm_num, by norm_num, by norm_num⟩,
   C5_scale_monotonicity imgC1 10 8 0 0 1 1 2 (by decide) (by decide)
    (by norm_num) (by norm_num) (by norm_num) (by norm_num) (by norm_num)
    (by norm_num) (by norm_num)⟩

/-- C6: the pre-rounding crop never exceeds the source bounds, and the
integer-rounded result of `_compute_crop_and_dpi` can exceed them by at
most one pixel per axis: `offx + width ≤ pixel_width + 1` and
`offy + height ≤ pixel_height + 1`. -/
theorem C6_rounding_overshoot_bound (img : SourceImage) (t : PrintTarget)
    (v : ViewParams)
    (hpw : 0 < img.pixel_width) (hph : 0 < img.pixel_height)
    (hw : 0 < t.width) (hh : 0 < t.height) (hf : 0 < t.unitFactor)
    (hxs1 : 1 ≤ v.x_scale) (hxs2 : v.x_scale ≤ 2)
    (hys1 : 1 ≤ v.y_scale) (hys2 : v.y_scale ≤ 2)
    (hxo1 : -(1/2) ≤ v.x_offset) (hxo2 : v.x_offset ≤ 1/2)
    (hyo1 : -(1/2) ≤ v.y_offset) (hyo2 : v.y_offset ≤ 1/2) :
    (computeCropCore img (t.width / t.unitFactor) (t.height / t.unitFactor)
          v).crop_origin_x
        + (computeCropCore img (t.width / t.unitFactor)
            (t.height / t.unitFactor) v).cropped_sel_w
        ≤ (img.pixel_width : ℚ)
      ∧ (computeCropCore img (t.width / t.unitFactor) (t.height / t.unitFactor)
          v).crop_origin_y
        + (computeCropCore img (t.width / t.unitFactor)
            (t.height / t.unitFactor) v).cropped_sel_h
        ≤ (img.pixel_height : ℚ)
      ∧ ∃ r : CropResult, computeCropAndDpi img t v = some r
          ∧ r.offx + r.width ≤ (img.pixel_width : ℤ) + 1
          ∧ r.offy + r.height ≤ (img.pixel_height : ℤ) + 1 := by
  have hxs : (0:ℚ) < v.x_scale := lt_of_lt_of_le one_pos hxs1
  have hys : (0:ℚ) < v.y_scale := lt_of_lt_of_le one_pos hys1
  have htw : (0:ℚ) < t.width / t.unitFactor := div_pos hw hf
  have hth : (0:ℚ) < t.height / t.unitFactor := div_pos hh hf
  have hFw : (computeCropCore img (t.width / t.unitFactor)
      (t.height / t.unitFactor) v).full_sel_w ≤ (img.pixel_width : ℚ) := by
    rw [core_full_sel_w]
    exact div_le_self (Nat.cast_nonneg _) hxs1
  have hFh : (computeCropCore img (t.width / t.unitFactor)
      (t.height / t.unitFactor) v).full_sel_h ≤ (img.pixel_height : ℚ) := by
    rw [core_full_sel_h]
    exact div_le_self (Nat.cast_nonneg _) hys1
  have hCw : (computeCropCore img (t.width / t.unitFactor)
        (t.height / t.unitFactor) v).cropped_sel_w
      ≤ (computeCropCore img (t.width / t.unitFactor)
          (t.height / t.unitFactor) v).full_sel_w := by
    rw [core_cropped_sel_w_min img _ _ v hph hys, core_full_sel_w]
    exact min_le_left _ _
  have hCh : (computeCropCore img (t.width / t.unitFactor)
        (t.height / t.unitFactor) v).cropped_sel_h
      ≤ (computeCropCore img (t.width / t.unitFactor)
          (t.height / t.unitFactor) v).full_sel_h := by
    rw [core_cropped_sel_h_min img _ _ v hph hys htw hth, core_full_sel_h]
    exact min_le_right _ _
  have h1 : (computeCropCore img (t.width / t.unitFactor)
        (t.height / t.unitFactor) v).crop_origin_x
      + (computeCropCore img (t.width / t.unitFactor)
          (t.height / t.unitFactor) v).cropped_sel_w
      ≤ (img.pixel_width : ℚ) := by
    rw [core_crop_origin_x, core_sel_origin_x]
    exact originSlack_le _ _ _ _ hFw hCw hxo2
  have h2 : (computeCropCore img (t.width / t.unitFactor)
        (t.height / t.unitFactor) v).crop_origin_y
      + (computeCropCore img (t.width / t.unitFactor)
          (t.height / t.unitFactor) v).cropped_sel_h
      ≤ (img.pixel_height : ℚ) := by
    rw [core_crop_origin_y, core_sel_origin_y]
    exact originSlack_le _ _ _ _ hFh hCh hyo2
  have hrx : pyRound (computeCropCore img (t.width / t.unitFactor)
        (t.height / t.unitFactor) v).crop_origin_x
      + pyRound (computeCropCore img (t.width / t.unitFactor)
          (t.height / t.unitFactor) v).cropped_sel_w
      ≤ (img.pixel_width : ℤ) + 1 := by
    have ha := pyRound_le_add_half (computeCropCore img
      (t.width / t.unitFactor) (t.height / t.unitFactor) v).crop_origin_x
    have hb := pyRound_le_add_half (computeCropCore img
      (t.width / t.unitFactor) (t.height / t.unitFactor) v).cropped_sel_w
    have hq : ((pyRound (computeCropCore img (t.width / t.unitFactor)
          (t.height / t.unitFactor) v).crop_origin_x
        + pyRound (computeCropCore img (t.width / t.unitFactor)
            (t.height / t.unitFactor) v).cropped_sel_w : ℤ) : ℚ)
        ≤ ((img.pixel_width : ℤ) : ℚ) + 1 := by
      push_cast
      linarith
    exact_mod_cast hq
  have hry : pyRound (computeCropCore img (t.width / t.unitFactor)
        (t.height / t.unitFactor) v).crop_origin_y
      + pyRound (computeCropCore img (t.width / t.unitFactor)
          (t.height / t.unitFactor) v).cropped_sel_h
      ≤ (img.pixel_height : ℤ) + 1 := by
    have ha := pyRound_le_add_half (computeCropCore img
      (t.width / t.unitFactor) (t.height / t.unitFactor) v).crop_origin_y
    have hb := pyRound_le_add_half (computeCropCore img
      (t.width / t.unitFactor) (t.height / t.unitFactor) v).cropped_sel_h
    have hq : ((pyRound (computeCropCore img (t.width / t.unitFactor)
          (t.height / t.unitFactor) v).crop_origin_y
        + pyRound (computeCropCore img (t.width / t.unitFactor)
            (t.height / t.unitFactor) v).cropped_sel_h : ℤ) : ℚ)
        ≤ ((img.pixel_height : ℤ) : ℚ) + 1 := by
      push_cast
      linarith
    exact_mod_cast hq
  have heq : computeCropAndDpi img t v = some
      { dpi_x := (computeCropCore img (t.width / t.unitFactor)
          (t.height / t.unitFactor) v).dpi_x
        dpi_y := (computeCropCore img (t.width / t.unitFactor)
          (t.height / t.unitFactor) v).dpi_y
        offx := pyRound (computeCropCore img (t.width / t.unitFactor)
          (t.height / t.unitFactor) v).crop_origin_x
        offy := pyRound (computeCropCore img (t.width / t.unitFactor)
          (t.height / t.unitFactor) v).crop_origin_y
        width := pyRound (computeCropCore img (t.width / t.unitFactor)
          (t.height / t.unitFactor) v).cropped_sel_w
        height := pyRound (computeCropCore img (t.width / t.unitFactor)
          (t.height / t.unitFactor) v).cropped_sel_h
        target_width_in := t.width / t.unitFactor
        target_height_in := t.height / t.unitFactor } := by
    simp only [computeCropAndDpi, computeTargetInches_pos t hw hh hf]
  exact ⟨h1, h2, _, heq, hrx, hry⟩

/-- C6 witness at the concrete C1 scenario input. -/
theorem C6_rounding_overshoot_bound_witness :
    (0 < imgC1.pixel_width ∧ 0 < imgC1.pixel_height
      ∧ 0 < targetC1.width ∧ 0 < targetC1.height ∧ 0 < targetC1.unitFactor
      ∧ 1 ≤ viewC1.x_scale ∧ viewC1.x_scale ≤ 2
      ∧ 1 ≤ viewC1.y_scale ∧ viewC1.y_scale ≤ 2
      ∧ -(1/2) ≤ viewC1.x_offset ∧ viewC1.x_offset ≤ 1/2
      ∧ -(1/2) ≤ viewC1.y_offset ∧ viewC1.y_offset ≤ 1/2)
    ∧ ((computeCropCore imgC1 (targetC1.width / targetC1.unitFactor)
          (targetC1.height / targetC1.unitFactor) viewC1).crop_origin_x
        + (computeCropCore imgC1 (targetC1.width / targetC1.unitFactor)
            (targetC1.height / targetC1.unitFactor) viewC1).cropped_sel_w
        ≤ (imgC1.pixel_width : ℚ)
      ∧ (computeCropCore imgC1 (targetC1.width / targetC1.unitFactor)
          (targetC1.height / targetC1.unitFactor) viewC1).crop_origin_y
        + (computeCropCore imgC1 (targetC1.width / targetC1.unitFactor)
            (targetC1.height / targetC1.unitFactor) viewC1).cropped_sel_h
        ≤ (imgC1.pixel_height : ℚ)
      ∧ ∃ r : CropResult, computeCropAndDpi imgC1 targetC1 viewC1 = some r
          ∧ r.offx + r.width ≤ (imgC1.pixel_width : ℤ) + 1
          ∧ r.offy + r.height ≤ (imgC1.pixel_height : ℤ) + 1) :=
  ⟨⟨by decide, by decide, by norm_num [targetC1], by norm_num [targetC1],
    by norm_num [targetC1], by norm_num [viewC1], by norm_num [viewC1],
    by norm_num [viewC1], by norm_num [viewC1], by norm_num [viewC1],
    by norm_num [viewC1], by norm_num [viewC1], by norm_num [viewC1]⟩,
   C6_rounding_overshoot_bound imgC1 targetC1 viewC1 (by decide) (by decide)
    (by norm_num [targetC1]) (by norm_num [targetC1]) (by norm_num [targetC1])
    (by norm_num [viewC1]) (by norm_num [viewC1]) (by norm_num [viewC1])
    (by norm_num [viewC1]) (by norm_num [viewC1]) (by norm_num [viewC1])
    (by norm_num [viewC1]) (by norm_num [viewC1])⟩

namespace PerfectFit

/-- When the target height property is not positive, the preview's aspect
fallback makes the crop rectangle coincide with the whole base thumbnail. -/
theorem previewCropInBase_fallback (bw bh tw th : ℚ) (hbh : 0 < bh)
    (hth : th ≤ 0) : previewCropInBase bw bh tw th = (bw, bh) := by
  simp only [previewCropInBase]
  rw [if_neg (not_lt.mpr hth), if_neg (lt_irrefl _), mul_comm,
    div_mul_cancel₀ _ (ne_of_gt hbh)]

end PerfectFit

/-- C7: the claim that the export path clamps the engine's rounded
rectangle before `gimp-image-crop` is false: for a 9×10 px source, a
7.5×10 inch target (unit factor 1), unit scales, `x_offset = 0.5` and
`y_offset = 0`, the code passes `offx = 2`, `width = 8` — so
`origin_x + width = 10 > 9 = pixel_width` reaches the crop call. -/
theorem C7_export_rect_exceeds_bounds :
    exportCropRect ⟨9, 10⟩ ⟨15/2, 10, 1⟩ ⟨1/2, 0, 1, 1⟩ = some (2, 0, 8, 10)
      ∧ ¬((2:ℤ) + 8 ≤ 9) := by
  constructor
  · norm_num [exportCropRect, computeCropAndDpi, computeTargetInches,
      computeCropCore, pyRound]
  · decide

/-- C8: with the lock active, changing one scale to a new value mirrors it
into the other axis (writing only when the other value differs), leaving
both axes equal to the new value; with the lock inactive no propagation
happens and the other axis keeps its value. -/
theorem C8_lock_scale_mirroring (x y nv : ℚ) (changed : Axis) :
    ((onScaleChanged ⟨x, y, true⟩ changed nv).1.x_scale = nv
      ∧ (onScaleChanged ⟨x, y, true⟩ changed nv).1.y_scale = nv
      ∧ ((onScaleChanged ⟨x, y, true⟩ changed nv).2 = true
          ↔ ScaleState.get ⟨x, y, true⟩ changed.other ≠ nv))
    ∧ ((onScaleChanged ⟨x, y, false⟩ changed nv).2 = false
      ∧ (onScaleChanged ⟨x, y, false⟩ changed nv).1.get changed = nv
      ∧ (onScaleChanged ⟨x, y, false⟩ changed nv).1.get changed.other
          = ScaleState.get ⟨x, y, false⟩ changed.other) := by
  cases changed <;>
    · simp only [onScaleChanged, ScaleState.set, ScaleState.get, Axis.other]
      split_ifs <;> simp_all

/-- C9 counterexample: for a 1×1 px source and a 0.05×200 inch target
(both within the declared parameter ranges), the rounded `width` field of
`_compute_crop_and_dpi` is `0`, not a positive integer. -/
theorem C9_width_zero_counterexample :
    (computeCropAndDpi ⟨1, 1⟩ ⟨1/20, 200, 1⟩ ⟨0, 0, 1, 1⟩).map CropResult.width
      = some 0 := by
  norm_num [computeCropAndDpi, computeTargetInches, computeCropCore, pyRound]

/-- C9 (amended): for every valid input the DPI values are positive, and
the rounded `width` and `height` are positive integers exactly when the
corresponding pre-rounding crop extent exceeds half a pixel — at or below
half a pixel the rounded field is `0`. -/
theorem C9_result_positive (img : SourceImage) (t : PrintTarget)
    (v : ViewParams)
    (hpw : 0 < img.pixel_width) (hph : 0 < img.pixel_height)
    (hw : 0 < t.width) (hh : 0 < t.height) (hf : 0 < t.unitFactor)
    (hxs : 0 < v.x_scale) (hys : 0 < v.y_scale) :
    ∃ r : CropResult, computeCropAndDpi img t v = some r
      ∧ 0 < r.dpi_x ∧ 0 < r.dpi_y
      ∧ (1/2 < (computeCropCore img (t.width / t.unitFactor)
            (t.height / t.unitFactor) v).cropped_sel_w → 0 < r.width)
      ∧ (1/2 < (computeCropCore img (t.width / t.unitFactor)
            (t.height / t.unitFactor) v).cropped_sel_h → 0 < r.height)
      ∧ ((computeCropCore img (t.width / t.unitFactor)
            (t.height / t.unitFactor) v).cropped_sel_w ≤ 1/2 → r.width = 0)
      ∧ ((computeCropCore img (t.width / t.unitFactor)
            (t.height / t.unitFactor) v).cropped_sel_h ≤ 1/2 → r.height = 0)
      := by
  have htw : (0:ℚ) < t.width / t.unitFactor := div_pos hw hf
  have hth : (0:ℚ) < t.height / t.unitFactor := div_pos hh hf
  have hpos := core_cropped_pos img (t.width / t.unitFactor)
    (t.height / t.unitFactor) v hpw hph htw hth hxs hys
  have hdx : 0 < (computeCropCore img (t.width / t.unitFactor)
      (t.height / t.unitFactor) v).dpi_x := by
    rw [core_dpi_x]
    exact div_pos hpos.1 htw
  have hdy : 0 < (computeCropCore img (t.width / t.unitFactor)
      (t.height / t.unitFactor) v).dpi_y := by
    rw [core_dpi_y]
    exact div_pos hpos.2 hth
  have heq : computeCropAndDpi img t v = some
      { dpi_x := (computeCropCore img (t.width / t.unitFactor)
          (t.height / t.unitFactor) v).dpi_x
        dpi_y := (computeCropCore img (t.width / t.unitFactor)
          (t.height / t.unitFactor) v).dpi_y
        offx := pyRound (computeCropCore img (t.width / t.unitFactor)
          (t.height / t.unitFactor) v).crop_origin_x
        offy := pyRound (computeCropCore img (t.width / t.unitFactor)
          (t.height / t.unitFactor) v).crop_origin_y
        width := pyRound (computeCropCore img (t.width / t.unitFactor)
          (t.height / t.unitFactor) v).cropped_sel_w
        height := pyRound (computeCropCore img (t.width / t.unitFactor)
          (t.height / t.unitFactor) v).cropped_sel_h
        target_width_in := t.width / t.unitFactor
        target_height_in := t.height / t.unitFactor } := by
    simp only [computeCropAndDpi, computeTargetInches_pos t hw hh hf]
  exact ⟨_, heq, hdx, hdy,
    fun hcw => lt_of_lt_of_le zero_lt_one (pyRound_one_le _ hcw),
    fun hch => lt_of_lt_of_le zero_lt_one (pyRound_one_le _ hch),
    fun hcw => pyRound_eq_zero _ hpos.1 hcw,
    fun hch => pyRound_eq_zero _ hpos.2 hch⟩

/-- C9 witness at the concrete C1 scenario input. -/
theorem C9_result_positive_witness :
    (0 < imgC1.pixel_width ∧ 0 < imgC1.pixel_height
      ∧ 0 < targetC1.width ∧ 0 < targetC1.height ∧ 0 < targetC1.unitFactor
      ∧ 0 < viewC1.x_scale ∧ 0 < viewC1.y_scale)
    ∧ (∃ r : CropResult, computeCropAndDpi imgC1 targetC1 viewC1 = some r
      ∧ 0 < r.dpi_x ∧ 0 < r.dpi_y
      ∧ (1/2 < (computeCropCore imgC1 (targetC1.width / targetC1.unitFactor)
            (targetC1.height / targetC1.unitFactor) viewC1).cropped_sel_w
          → 0 < r.width)
      ∧ (1/2 < (computeCropCore imgC1 (targetC1.width / targetC1.unitFactor)
            (targetC1.height / targetC1.unitFactor) viewC1).cropped_sel_h
          → 0 < r.height)
      ∧ ((computeCropCore imgC1 (targetC1.width / targetC1.unitFactor)
            (targetC1.height / targetC1.unitFactor) viewC1).cropped_sel_w
            ≤ 1/2 → r.width = 0)
      ∧ ((computeCropCore imgC1 (targetC1.width / targetC1.unitFactor)
            (targetC1.height / targetC1.unitFactor) viewC1).cropped_sel_h
            ≤ 1/2 → r.height = 0)) :=
  ⟨⟨by decide, by decide, by norm_num [targetC1], by norm_num [targetC1],
    by norm_num [targetC1], by norm_num [viewC1], by norm_num [viewC1]⟩,
   C9_result_positive imgC1 targetC1 viewC1 (by decide) (by decide)
    (by norm_num [targetC1]) (by norm_num [targetC1]) (by norm_num [targetC1])
    (by norm_num [viewC1]) (by norm_num [viewC1])⟩

/-- C10: for a source with positive dimensions and a non-positive target
height property, `draw_preview`'s aspect fallback uses the base thumbnail's
own aspect, so the crop-rectangle size computation yields the positive
full-thumbnail extent instead of dividing by the zero target height. -/
theorem C10_preview_aspect_fallback (img : SourceImage) (tw th : ℚ)
    (hpw : 0 < img.pixel_width) (hph : 0 < img.pixel_height) (hth : th ≤ 0) :
    ∃ bw bh : ℕ, getBaseThumbnailSize img = some (bw, bh)
      ∧ 0 < bw ∧ 0 < bh
      ∧ previewCropInBase (bw : ℚ) (bh : ℚ) tw th = ((bw : ℚ), (bh : ℚ)) := by
  have hne : ¬(img.pixel_width = 0 ∨ img.pixel_height = 0) := by omega
  simp only [getBaseThumbnailSize, if_neg hne]
  refine ⟨_, _, rfl, ?_, ?_, ?_⟩
  · have h1 : (1:ℤ) ≤ max 1 (if 1 < (img.pixel_width : ℚ) / (img.pixel_height : ℚ)
        then 1024 else ⌊(1024 : ℚ) * ((img.pixel_width : ℚ) / (img.pixel_height : ℚ))⌋) :=
      le_max_left _ _
    omega
  · have h1 : (1:ℤ) ≤ max 1 (if 1 < (img.pixel_width : ℚ) / (img.pixel_height : ℚ)
        then ⌊(1024 : ℚ) / ((img.pixel_width : ℚ) / (img.pixel_height : ℚ))⌋ else 1024) :=
      le_max_left _ _
    omega
  · refine previewCropInBase_fallback _ _ tw th ?_ hth
    have h1 : (1:ℤ) ≤ max 1 (if 1 < (img.pixel_width : ℚ) / (img.pixel_height : ℚ)
        then ⌊(1024 : ℚ) / ((img.pixel_width : ℚ) / (img.pixel_height : ℚ))⌋ else 1024) :=
      le_max_left _ _
    have h2 : 0 < (max 1 (if 1 < (img.pixel_width : ℚ) / (img.pixel_height : ℚ)
        then ⌊(1024 : ℚ) / ((img.pixel_width : ℚ) / (img.pixel_height : ℚ))⌋ else 1024)).toNat := by
      omega
    exact_mod_cast Nat.cast_pos.mpr h2

/-- C10 witness: a 3000×2000 source with target height property 0. -/
theorem C10_preview_aspect_fallback_witness :
    (0 < (3000:ℕ) ∧ 0 < (2000:ℕ) ∧ (0:ℚ) ≤ 0)
    ∧ (∃ bw bh : ℕ,
        getBaseThumbnailSize ⟨3000, 2000⟩ = some (bw, bh)
        ∧ 0 < bw ∧ 0 < bh
        ∧ previewCropInBase (bw : ℚ) (bh : ℚ) 10 0 = ((bw : ℚ), (bh : ℚ))) :=
  ⟨⟨by decide, by decide, by norm_num⟩,
   C10_preview_aspect_fallback ⟨3000, 2000⟩ 10 0 (by decide) (by decide)
    (by norm_num)⟩
